import Mathlib

/-!
Shallow embedding of `upup/pkg/fi/cloudup/openstacktasks/lb.go`, the OpenStack
load-balancer reconciliation task of kops: the `LB` resource descriptor, the
`Find` discovery function, the `CheckChanges` validation function, the
`RenderOpenstack` convergence function and the
`waitLoadbalancerActiveProvisioningStatus` poller.

The cloud provider boundary (gophercloud calls plus the repo helpers wrapped
around them) is modelled as an oracle structure `Cloud` of pure
`Except`-returning functions; every remote operation a run issues is also
recorded in an explicit trace (`List Op`) so that statements about which
remote calls happen are provable.
-/

set_option maxHeartbeats 1000000
set_option linter.unusedVariables false

namespace Kops

/-- The fields of the separately managed security-group task that `lb.go`
reads: its remote identifier and its name (both optional, as in the Go
pointer fields). -/
structure SecurityGroup where
  ID : Option String
  Name : Option String
  deriving DecidableEq

/-- The load-balancer resource descriptor, struct `LB` in the source.
`fi.Lifecycle` is a string-valued enum in kops and is carried opaquely. -/
structure LB where
  ID : Option String
  Name : Option String
  Subnet : Option String
  VipSubnet : Option String
  Lifecycle : String
  PortID : Option String
  SecurityGroup : Option SecurityGroup
  Provider : Option String
  FlavorID : Option String
  deriving DecidableEq

/-- `fi.ValueOf` on a string pointer: dereference, giving the zero value on
nil. -/
def valueOf (s : Option String) : String := s.getD ""

/-- The remote load-balancer record (`loadbalancers.LoadBalancer` of
gophercloud), restricted to the fields `lb.go` reads. -/
structure LoadBalancer where
  ID : String
  Name : String
  VipPortID : String
  VipSubnetID : String
  Provider : String
  FlavorID : String
  ProvisioningStatus : String
  deriving DecidableEq

/-- The remote subnet record (`subnets.Subnet` of gophercloud), restricted to
the fields `lb.go` reads. -/
structure Subnet where
  ID : String
  Name : String
  deriving DecidableEq

/-- The remote port record (`ports.Port` of gophercloud), restricted to the
field `lb.go` reads. -/
structure Port where
  SecurityGroups : List String
  deriving DecidableEq

/-- `loadbalancers.CreateOpts`: the fields the creation path fills in.
`FlavorID` keeps the Go zero value when the descriptor has no flavor. -/
structure CreateOpts where
  Name : String
  VipSubnetID : String
  FlavorID : String
  deriving DecidableEq

/-- A remote operation issued against the cloud, recorded in traces. -/
inductive Op where
  | listLoadbalancers (name : String)
  | getSubnet (id : String)
  | getSecurityGroupByName (name : String)
  | listSubnets (name : String)
  | createLB (opts : CreateOpts)
  | getPort (id : String)
  | updatePort (portId : String) (securityGroups : List String)
  deriving DecidableEq

/-- Whether an operation mutates remote state (create or port update). -/
def Op.isMutation : Op → Bool
  | .createLB _ => true
  | .updatePort _ _ => true
  | _ => false

/-- Whether an operation is a load-balancer create. -/
def Op.isCreate : Op → Bool
  | .createLB _ => true
  | _ => false

/-- The cloud provider boundary as an oracle of pure responses: each field
gives the outcome the remote system would return for that call.
`listLoadbalancers` is the by-name listing used by `Find` (the page fetch and
the extraction are collapsed into one fallible call); `getSubnet` is
`subnets.Get` by id; `getSecurityGroupByName` models the repo helper
`getSecurityGroupByName` (code outside `src/`), per the spec an exact-name
security-group lookup; `listSubnets` is `cloud.ListSubnets` by name filter;
`createLB` is `cloud.CreateLB`; `getPort` is `cloud.GetPort`; `updatePort` is
`ports.Update` replacing the port's security-group list wholesale. -/
structure Cloud where
  listLoadbalancers : String → Except String (List LoadBalancer)
  getSubnet : String → Except String Subnet
  getSecurityGroupByName : String → Except String SecurityGroup
  listSubnets : String → Except String (List Subnet)
  createLB : CreateOpts → Except String LoadBalancer
  getPort : String → Except String Port
  updatePort : String → List String → Except String Port

/-- Validation errors of `CheckChanges`: `fi.RequiredField` and
`fi.CannotChangeField` (helpers outside `src/`), per the spec a
required-field error and an immutable-field violation, each naming the
field. -/
inductive CheckError where
  | requiredField (field : String)
  | cannotChangeField (field : String)
  deriving DecidableEq

/-- `(*LB).CheckChanges`: creation requires a name; on update neither `ID`
nor `Name` may appear in the delta. -/
def CheckChanges (a : Option LB) (e changes : LB) : Option CheckError :=
  match a with
  | none =>
    if e.Name = none then some (.requiredField "Name") else none
  | some _ =>
    if changes.ID.isSome then some (.cannotChangeField "ID")
    else if changes.Name.isSome then some (.cannotChangeField "Name")
    else none

/-- `activeStatus`: the recognized success provisioning status. -/
def activeStatus : String := "ACTIVE"

/-- `errorStatus`: the recognized failure provisioning status. -/
def errorStatus : String := "ERROR"

/-- `loadbalancerActiveSteps`: the poller's maximum step count. -/
def loadbalancerActiveSteps : Nat := 22

/-- `loadbalancerActiveInitDelay = 1 * time.Second`, in seconds. -/
def loadbalancerActiveInitDelaySeconds : ℚ := 1

/-- `loadbalancerActiveFactor = 1.2`, the multiplicative backoff factor. -/
def loadbalancerActiveFactor : ℚ := 1.2

/-- The three distinguishable error outcomes of the poller: a transport
error from a status fetch, the explicit ERROR-status failure, and the
timeout after the step budget is exhausted. -/
inductive PollError where
  | transport (msg : String)
  | failedStatus
  | timeout
  deriving DecidableEq

/-- Result of the poller: the last provisioning status fetched (the Go
`provisioningStatus` variable, initially the zero value `""`), the number of
status fetches performed, and the error outcome if any. -/
structure PollResult where
  provisioningStatus : String
  attempts : Nat
  err : Option PollError
  deriving DecidableEq

/-- The `wait.ExponentialBackoff` loop specialised to the condition function
of `waitLoadbalancerActiveProvisioningStatus`: at each remaining step fetch
the load balancer's status (`fetch i` is the outcome of the i-th fetch); a
fetch error aborts with that transport error; status ACTIVE succeeds; status
ERROR fails immediately; any other status continues; an exhausted budget
yields the timeout error (the source maps `wait.ErrWaitTimeout` to its own
timeout message). -/
def pollGo (fetch : Nat → Except String String) : Nat → Nat → String → PollResult
  | 0, i, last => ⟨last, i, some .timeout⟩
  | steps + 1, i, last =>
    match fetch i with
    | .error msg => ⟨last, i + 1, some (.transport msg)⟩
    | .ok status =>
      if status = activeStatus then ⟨status, i + 1, none⟩
      else if status = errorStatus then ⟨status, i + 1, some .failedStatus⟩
      else pollGo fetch steps (i + 1) status

/-- `waitLoadbalancerActiveProvisioningStatus`: run the backoff loop with
the configured step budget. -/
def waitLoadbalancerActiveProvisioningStatus (fetch : Nat → Except String String) : PollResult :=
  pollGo fetch loadbalancerActiveSteps 0 ""

/-- The total wait bound documented in the source: the comment above the
backoff constants states that, starting with 1 second and multiplying by 1.2
with each of the at most 22 steps, the loop "will time out after 326s, which
roughly corresponds to about 5 minutes". That figure is the sum of the
geometric delay schedule carried through step count 22 inclusive
(23 terms), which is the sum formalised here. -/
def totalWaitBoundSeconds : ℚ :=
  ∑ k ∈ Finset.range (loadbalancerActiveSteps + 1),
    loadbalancerActiveInitDelaySeconds * loadbalancerActiveFactor ^ k

/-- Result of one `RenderOpenstack` call: the (possibly mutated in place)
desired descriptor `e`, the trace of remote operations issued, and the
returned error if any (error messages follow the source's format strings). -/
structure RenderResult where
  e : LB
  ops : List Op
  err : Option String
  deriving DecidableEq

/-- The `loadbalancers.CreateOpts` value built on the creation path: name and
resolved subnet id, plus the flavor id exactly when the descriptor carries
one. -/
def creationOpts (e : LB) (sub : Subnet) : CreateOpts :=
  let lbopts : CreateOpts := ⟨valueOf e.Name, sub.ID, ""⟩
  if e.FlavorID.isSome then { lbopts with FlavorID := valueOf e.FlavorID } else lbopts

/-- The creation path of `RenderOpenstack` (`a == nil`): resolve the desired
subnet name to exactly one remote subnet, create the load balancer, write the
remote-assigned fields back onto `e`, and, when a security group is
requested, set the new VIP port's security-group list to that single group's
id. -/
def renderCreate (cloud : Cloud) (e : LB) : RenderResult :=
  let subnetName := valueOf e.Subnet
  match cloud.listSubnets subnetName with
  | .error msg =>
    ⟨e, [.listSubnets subnetName],
      some ("Failed to retrieve subnet `" ++ subnetName ++ "` in loadbalancer creation: " ++ msg)⟩
  | .ok subnetList =>
    match subnetList with
    | [sub] =>
      let lbopts := creationOpts e sub
      match cloud.createLB lbopts with
      | .error msg =>
        ⟨e, [.listSubnets subnetName, .createLB lbopts], some ("error creating LB: " ++ msg)⟩
      | .ok lb =>
        let e1 := { e with ID := some lb.ID, PortID := some lb.VipPortID,
                           VipSubnet := some lb.VipSubnetID, Provider := some lb.Provider,
                           FlavorID := some lb.FlavorID }
        match e.SecurityGroup with
        | some sg =>
          let sgs := [valueOf sg.ID]
          match cloud.updatePort lb.VipPortID sgs with
          | .error msg =>
            ⟨e1, [.listSubnets subnetName, .createLB lbopts, .updatePort lb.VipPortID sgs],
              some ("Failed to update security group for port " ++ lb.VipPortID ++ ": " ++ msg)⟩
          | .ok _ =>
            ⟨e1, [.listSubnets subnetName, .createLB lbopts, .updatePort lb.VipPortID sgs], none⟩
        | none => ⟨e1, [.listSubnets subnetName, .createLB lbopts], none⟩
    | _ =>
      ⟨e, [.listSubnets subnetName],
        some ("Unexpected desired subnets for `" ++ subnetName ++ "`.  Expected 1, got "
          ++ toString subnetList.length)⟩

/-- The repair path of `RenderOpenstack` (`a != nil`): fetch the port named
by `a.PortID`; if a security group is requested and the port's list is empty
or has a different first entry, issue the same port update as the creation
path; otherwise do nothing. -/
def renderRepair (cloud : Cloud) (a e : LB) : RenderResult :=
  let portId := valueOf a.PortID
  match cloud.getPort portId with
  | .error msg =>
    ⟨e, [.getPort portId], some ("Failed to get port with id " ++ portId ++ ": " ++ msg)⟩
  | .ok port =>
    match e.SecurityGroup with
    | some sg =>
      if port.SecurityGroups.length < 1 ∨ port.SecurityGroups.headD "" ≠ valueOf sg.ID then
        let sgs := [valueOf sg.ID]
        match cloud.updatePort portId sgs with
        | .error msg =>
          ⟨e, [.getPort portId, .updatePort portId sgs],
            some ("Failed to update security group for port " ++ portId ++ ": " ++ msg)⟩
        | .ok _ => ⟨e, [.getPort portId, .updatePort portId sgs], none⟩
      else ⟨e, [.getPort portId], none⟩
    | none => ⟨e, [.getPort portId], none⟩

/-- `(*LB).RenderOpenstack`: dispatch on whether an actual resource exists.
The delta argument `changes` is accepted but, as in the source, never read. -/
def RenderOpenstack (cloud : Cloud) (a : Option LB) (e changes : LB) : RenderResult :=
  match a with
  | none => renderCreate cloud e
  | some av => renderRepair cloud av e

/-- Result of `NewLBTaskFromCloud`: the reconstructed actual descriptor (or
an error), the caller's `find` receiver after back-propagation, and the trace
of remote operations issued. -/
structure TaskFromCloudResult where
  result : Except String LB
  find : Option LB
  ops : List Op

/-- The back-propagation step at the end of `NewLBTaskFromCloud`: when a
`find` receiver was supplied, copy the five remote-assigned fields of the
reconstructed descriptor onto it. -/
def backPropagate (find : Option LB) (actual : LB) : Option LB :=
  match find with
  | none => none
  | some f =>
    some { f with ID := actual.ID, PortID := actual.PortID, VipSubnet := actual.VipSubnet,
                  Provider := actual.Provider, FlavorID := actual.FlavorID }

/-- `NewLBTaskFromCloud`: resolve the matched load balancer's VIP subnet id
to a subnet name, build the actual descriptor, resolve its security group by
the load balancer's own name unless the `find` receiver explicitly carries no
security group, and back-propagate remote-assigned fields onto the
receiver. -/
def NewLBTaskFromCloud (cloud : Cloud) (lifecycle : String) (lb : LoadBalancer)
    (find : Option LB) : TaskFromCloudResult :=
  match cloud.getSubnet lb.VipSubnetID with
  | .error msg => ⟨.error msg, find, [.getSubnet lb.VipSubnetID]⟩
  | .ok sub =>
    let secGroup : Bool :=
      match find with
      | some f => if f.SecurityGroup = none then false else true
      | none => true
    let actual0 : LB :=
      { ID := some lb.ID, Name := some lb.Name, Subnet := some sub.Name,
        VipSubnet := some lb.VipSubnetID, Lifecycle := lifecycle,
        PortID := some lb.VipPortID, SecurityGroup := none,
        Provider := some lb.Provider, FlavorID := some lb.FlavorID }
    if secGroup then
      match cloud.getSecurityGroupByName lb.Name with
      | .error msg =>
        ⟨.error msg, find, [.getSubnet lb.VipSubnetID, .getSecurityGroupByName lb.Name]⟩
      | .ok sg =>
        let actual := { actual0 with SecurityGroup := some sg }
        ⟨.ok actual, backPropagate find actual,
          [.getSubnet lb.VipSubnetID, .getSecurityGroupByName lb.Name]⟩
    else
      ⟨.ok actual0, backPropagate find actual0, [.getSubnet lb.VipSubnetID]⟩

/-- Result of one `Find` call: the discovery outcome (an error, absent, or
the actual descriptor), the receiver after any back-propagation, and the
trace of remote operations issued. -/
structure FindResult where
  result : Except String (Option LB)
  recv : LB
  ops : List Op

/-- `(*LB).Find`: with no name return absent without touching the cloud;
otherwise list load balancers by exact name and dispatch on the match
count — absent on zero, ambiguity error on more than one, reconstruction via
`NewLBTaskFromCloud` (with `s` itself as the receiver) on exactly one. -/
def Find (cloud : Cloud) (s : LB) : FindResult :=
  match s.Name with
  | none => ⟨.ok none, s, []⟩
  | some _ =>
    let name := valueOf s.Name
    match cloud.listLoadbalancers name with
    | .error msg =>
      ⟨.error ("Failed to retrieve loadbalancers for name " ++ name ++ ": " ++ msg), s,
        [.listLoadbalancers name]⟩
    | .ok lbs =>
      match lbs with
      | [] => ⟨.ok none, s, [.listLoadbalancers name]⟩
      | [lb] =>
        let r := NewLBTaskFromCloud cloud s.Lifecycle lb (some s)
        ⟨r.result.map some, r.find.getD s, [.listLoadbalancers name] ++ r.ops⟩
      | _ =>
        ⟨.error ("Multiple load balancers for name " ++ name), s, [.listLoadbalancers name]⟩

/-! Concrete fixtures used by the witness theorems. -/

/-- A cloud oracle every call of which fails, the base for fixtures. -/
def emptyCloud : Cloud :=
  ⟨fun _ => .error "unreachable", fun _ => .error "unreachable", fun _ => .error "unreachable",
   fun _ => .error "unreachable", fun _ => .error "unreachable", fun _ => .error "unreachable",
   fun _ _ => .error "unreachable"⟩

/-- A descriptor with every optional field unset. -/
def emptyLB : LB := ⟨none, none, none, none, "", none, none, none, none⟩

/-- A concrete security group. -/
def sgW : SecurityGroup := ⟨some "sg-1", some "lb1-sg"⟩

/-- A concrete remote load balancer. -/
def lbRemoteW : LoadBalancer := ⟨"lbid-1", "lb1", "portid-1", "subnetid-1", "octavia", "flavor-1", "ACTIVE"⟩

/-- A concrete remote subnet. -/
def subnetW : Subnet := ⟨"subnetid-1", "subnet-a"⟩

/-- A descriptor carrying only a name. -/
def lbNamedW : LB := { emptyLB with Name := some "lb1" }

/-- A descriptor carrying a name and a tracked security group. -/
def lbNamedSgW : LB := { emptyLB with Name := some "lb1", SecurityGroup := some sgW }

/-- An actual descriptor carrying a port id. -/
def actualW : LB := { emptyLB with PortID := some "portid-1" }

/-- A desired descriptor requesting a security group. -/
def desiredSgW : LB := { emptyLB with SecurityGroup := some sgW }

/-- A cloud whose port has an empty security-group list and accepts updates. -/
def cloudRepairW : Cloud :=
  { emptyCloud with getPort := fun _ => .ok ⟨[]⟩, updatePort := fun _ sgs => .ok ⟨sgs⟩ }

/-- A cloud whose port already carries the desired security group. -/
def cloudNoopW : Cloud := { emptyCloud with getPort := fun _ => .ok ⟨["sg-1"]⟩ }

/-- A cloud whose port fetch fails. -/
def cloudPortFailW : Cloud := { emptyCloud with getPort := fun _ => .error "boom" }

/-- A cloud listing no load balancer for any name. -/
def cloudAbsentW : Cloud := { emptyCloud with listLoadbalancers := fun _ => .ok [] }

/-- A cloud resolving one subnet and creating load balancers. -/
def cloudCreateW : Cloud :=
  { emptyCloud with listSubnets := fun _ => .ok [subnetW],
                    createLB := fun _ => .ok lbRemoteW,
                    updatePort := fun _ sgs => .ok ⟨sgs⟩ }

/-- A cloud listing exactly one load balancer and resolving its subnet and
security group. -/
def cloudFindW : Cloud :=
  { emptyCloud with listLoadbalancers := fun _ => .ok [lbRemoteW],
                    getSubnet := fun _ => .ok subnetW,
                    getSecurityGroupByName := fun _ => .ok sgW }

/-- A status-fetch sequence PENDING, PENDING, ACTIVE, ... . -/
def fetchW : Nat → Except String String :=
  fun j => .ok (if j < 2 then "PENDING" else "ACTIVE")

/-- A delta carrying a non-nil ID. -/
def changesIDW : LB := { emptyLB with ID := some "lbid-2" }

/-! The claim theorems. -/

/-- C3: `CheckChanges` yields a required-field error on creation exactly when
the desired name is unset, an immutable-field violation on update exactly
when the delta carries a non-nil ID or Name (regardless of other fields),
and no error otherwise. -/
theorem CheckChanges_contract (a : Option LB) (e changes : LB) :
    (a = none →
      ((CheckChanges a e changes = some (.requiredField "Name") ↔ e.Name = none)
        ∧ (e.Name ≠ none → CheckChanges a e changes = none)))
    ∧ (∀ av, a = some av →
      (((∃ f, CheckChanges a e changes = some (.cannotChangeField f)) ↔
          (changes.ID.isSome ∨ changes.Name.isSome))
        ∧ (changes.ID = none → changes.Name = none → CheckChanges a e changes = none))) := by
  constructor
  · rintro rfl
    constructor
    · by_cases h : e.Name = none <;> simp [CheckChanges, h]
    · intro h
      simp [CheckChanges, h]
  · rintro av rfl
    constructor
    · constructor
      · rintro ⟨f, hf⟩
        by_cases h1 : changes.ID.isSome
        · exact Or.inl h1
        · by_cases h2 : changes.Name.isSome
          · exact Or.inr h2
          · simp [CheckChanges, h1, h2] at hf
      · rintro (h | h)
        · exact ⟨"ID", by simp [CheckChanges, h]⟩
        · by_cases h1 : changes.ID.isSome
          · exact ⟨"ID", by simp [CheckChanges, h1]⟩
          · exact ⟨"Name", by simp [CheckChanges, h1, h]⟩
    · intro h1 h2
      simp [CheckChanges, h1, h2]

/-- Witness for C3: a delta with a non-nil ID against a present actual is
rejected as an immutable-field violation. -/
theorem CheckChanges_contract_witness :
    ∃ f, CheckChanges (some emptyLB) emptyLB changesIDW = some (.cannotChangeField f) :=
  (((CheckChanges_contract (some emptyLB) emptyLB changesIDW).2 emptyLB rfl).1).mpr
    (Or.inl rfl)

/-- C8: `Find` with an unset name returns absent with no error, leaves the
receiver untouched and issues no remote call. -/
theorem Find_unset_name_noop (cloud : Cloud) (s : LB) (h : s.Name = none) :
    Find cloud s = ⟨.ok none, s, []⟩ := by
  unfold Find
  rw [h]

/-- Witness for C8 at a concrete cloud and descriptor. -/
theorem Find_unset_name_noop_witness :
    Find emptyCloud emptyLB = ⟨.ok none, emptyLB, []⟩ :=
  Find_unset_name_noop emptyCloud emptyLB rfl

/-- C10: with an actual present, the port named by `actual.PortID` is fetched
before any security-group check; if the fetch fails the whole call fails with
an error naming the port id, no mutation is issued and the desired descriptor
is untouched — even when no security group is requested. -/
theorem RenderOpenstack_unconditional_port_fetch (cloud : Cloud) (a e changes : LB)
    (msg : String)
    (hfail : cloud.getPort (valueOf a.PortID) = .error msg) :
    RenderOpenstack cloud (some a) e changes =
      ⟨e, [.getPort (valueOf a.PortID)],
        some ("Failed to get port with id " ++ valueOf a.PortID ++ ": " ++ msg)⟩ := by
  simp [RenderOpenstack, renderRepair, hfail]

/-- Witness for C10: a failing port fetch fails a repair-path call that would
otherwise have been a no-op (no security group requested). -/
theorem RenderOpenstack_unconditional_port_fetch_witness :
    RenderOpenstack cloudPortFailW (some actualW) emptyLB emptyLB =
      ⟨emptyLB, [.getPort (valueOf actualW.PortID)],
        some ("Failed to get port with id " ++ valueOf actualW.PortID ++ ": " ++ "boom")⟩ :=
  RenderOpenstack_unconditional_port_fetch cloudPortFailW actualW emptyLB emptyLB "boom" rfl

/-- C9: the backoff constants are initial delay 1 second, factor 1.2 and 22
steps, and the total wait bound documented in the source (the geometric delay
sum) lies between 5 and 6 minutes. -/
theorem backoff_budget :
    loadbalancerActiveInitDelaySeconds = 1 ∧ loadbalancerActiveFactor = 1.2
    ∧ loadbalancerActiveSteps = 22
    ∧ 5 * 60 ≤ totalWaitBoundSeconds ∧ totalWaitBoundSeconds ≤ 6 * 60 := by
  refine ⟨rfl, rfl, rfl, ?_, ?_⟩ <;>
    norm_num [totalWaitBoundSeconds, loadbalancerActiveSteps,
      loadbalancerActiveInitDelaySeconds, loadbalancerActiveFactor, Finset.sum_range_succ]

/-- C1: with an actual present, a desired security group, and a successfully
fetched port whose security-group list is empty or has a different first
entry, the repair path issues exactly one port update setting the list to the
singleton of the desired group's id (no load-balancer create), and mutates no
field of the desired descriptor. -/
theorem RenderOpenstack_repairs_drifted_securityGroup
    (cloud : Cloud) (a e changes : LB) (sg : SecurityGroup) (port : Port)
    (hsg : e.SecurityGroup = some sg)
    (hport : cloud.getPort (valueOf a.PortID) = .ok port)
    (hdrift : port.SecurityGroups.length < 1 ∨ port.SecurityGroups.headD "" ≠ valueOf sg.ID) :
    (RenderOpenstack cloud (some a) e changes).ops =
      [.getPort (valueOf a.PortID), .updatePort (valueOf a.PortID) [valueOf sg.ID]]
    ∧ (RenderOpenstack cloud (some a) e changes).e = e := by
  simp only [RenderOpenstack, renderRepair, hport, hsg]
  rw [if_pos hdrift]
  cases hupd : cloud.updatePort (valueOf a.PortID) [valueOf sg.ID] <;> simp [hupd]

/-- Witness for C1: a port with an empty security-group list is corrected by
a single port update. -/
theorem RenderOpenstack_repairs_drifted_securityGroup_witness :
    (RenderOpenstack cloudRepairW (some actualW) desiredSgW emptyLB).ops =
      [.getPort (valueOf actualW.PortID),
        .updatePort (valueOf actualW.PortID) [valueOf sgW.ID]]
    ∧ (RenderOpenstack cloudRepairW (some actualW) desiredSgW emptyLB).e = desiredSgW :=
  RenderOpenstack_repairs_drifted_securityGroup cloudRepairW actualW desiredSgW emptyLB sgW
    ⟨[]⟩ rfl rfl (by decide)

/-- C2: with an actual present and no drift (the port fetch succeeds, and
either no security group is desired or the fetched port's list already has
the desired group's id as its first entry), the repair path issues no
mutation, returns no error, and leaves the desired descriptor untouched; a
repeated Render under the same conditions is therefore the same no-op. -/
theorem RenderOpenstack_noop_when_undrifted
    (cloud : Cloud) (a e changes : LB) (port : Port)
    (hport : cloud.getPort (valueOf a.PortID) = .ok port)
    (hok : e.SecurityGroup = none ∨
      ∃ sg, e.SecurityGroup = some sg
        ∧ port.SecurityGroups.head? = some (valueOf sg.ID)) :
    RenderOpenstack cloud (some a) e changes = ⟨e, [.getPort (valueOf a.PortID)], none⟩ := by
  simp only [RenderOpenstack, renderRepair, hport]
  rcases hok with h | ⟨sg, hsg, hhead⟩
  · simp [h]
  · obtain ⟨l, hl⟩ : ∃ l, port.SecurityGroups = valueOf sg.ID :: l := by
      cases hps : port.SecurityGroups with
      | nil => rw [hps] at hhead; simp at hhead
      | cons x t =>
        rw [hps] at hhead
        simp at hhead
        exact ⟨t, by rw [hhead]⟩
    simp [hsg, hl]

/-- Witness for C2: a port already carrying the desired security group first
is left alone. -/
theorem RenderOpenstack_noop_when_undrifted_witness :
    RenderOpenstack cloudNoopW (some actualW) desiredSgW emptyLB =
      ⟨desiredSgW, [.getPort (valueOf actualW.PortID)], none⟩ :=
  RenderOpenstack_noop_when_undrifted cloudNoopW actualW desiredSgW emptyLB ⟨["sg-1"]⟩ rfl
    (Or.inr ⟨sgW, rfl, rfl⟩)

/-- C4: with a name set, a remote listing with zero matches makes `Find`
return absent with no error, and a listing with more than one match makes it
fail with an ambiguity error naming the duplicate key, without reconstructing
a descriptor or touching the receiver. -/
theorem Find_match_count (cloud : Cloud) (s : LB) (n : String) (lbs : List LoadBalancer)
    (hname : s.Name = some n) (hlist : cloud.listLoadbalancers n = .ok lbs) :
    (lbs = [] → Find cloud s = ⟨.ok none, s, [.listLoadbalancers n]⟩)
    ∧ (2 ≤ lbs.length →
        Find cloud s =
          ⟨.error ("Multiple load balancers for name " ++ n), s, [.listLoadbalancers n]⟩) := by
  constructor
  · rintro rfl
    simp [Find, hname, valueOf, hlist]
  · intro hlen
    match lbs, hlist, hlen with
    | x :: y :: t, hlist, _ => simp [Find, hname, valueOf, hlist]

/-- Witness for C4: zero matches for a set name yields absent with no
error. -/
theorem Find_match_count_witness :
    Find cloudAbsentW lbNamedW = ⟨.ok none, lbNamedW, [.listLoadbalancers "lb1"]⟩ :=
  (Find_match_count cloudAbsentW lbNamedW "lb1" [] rfl rfl).1 rfl

/-- C6: on the creation path the desired subnet name must resolve to exactly
one remote subnet — a listing failure or a match count other than one is a
fatal error with no create issued and the descriptor untouched; otherwise a
single create request is issued carrying the resource name, the resolved
subnet id, and the flavor id when one is set, and on success the five
remote-assigned fields are written back onto the desired descriptor. -/
theorem RenderOpenstack_creation_path (cloud : Cloud) (e changes : LB) :
    (∀ msg, cloud.listSubnets (valueOf e.Subnet) = .error msg →
      ((RenderOpenstack cloud none e changes).err.isSome
        ∧ (RenderOpenstack cloud none e changes).ops.filter Op.isCreate = []
        ∧ (RenderOpenstack cloud none e changes).e = e))
    ∧ (∀ subs, cloud.listSubnets (valueOf e.Subnet) = .ok subs → subs.length ≠ 1 →
      ((RenderOpenstack cloud none e changes).err.isSome
        ∧ (RenderOpenstack cloud none e changes).ops.filter Op.isCreate = []
        ∧ (RenderOpenstack cloud none e changes).e = e))
    ∧ (∀ sub lb, cloud.listSubnets (valueOf e.Subnet) = .ok [sub] →
        cloud.createLB (creationOpts e sub) = .ok lb →
      ((creationOpts e sub).Name = valueOf e.Name
        ∧ (creationOpts e sub).VipSubnetID = sub.ID
        ∧ (e.FlavorID.isSome → (creationOpts e sub).FlavorID = valueOf e.FlavorID)
        ∧ (RenderOpenstack cloud none e changes).ops.filter Op.isCreate
            = [.createLB (creationOpts e sub)]
        ∧ (RenderOpenstack cloud none e changes).e =
            { e with ID := some lb.ID, PortID := some lb.VipPortID,
                     VipSubnet := some lb.VipSubnetID, Provider := some lb.Provider,
                     FlavorID := some lb.FlavorID })) := by
  refine ⟨?_, ?_, ?_⟩
  · intro msg hmsg
    simp [RenderOpenstack, renderCreate, hmsg, List.filter, Op.isCreate]
  · intro subs hsubs hlen
    match subs, hsubs, hlen with
    | [], hsubs, _ =>
      simp [RenderOpenstack, renderCreate, hsubs, List.filter, Op.isCreate]
    | x :: y :: t, hsubs, _ =>
      simp [RenderOpenstack, renderCreate, hsubs, List.filter, Op.isCreate]
    | [x], _, hlen =>
      exact absurd rfl hlen
  · intro sub lb hsubs hcreate
    refine ⟨?_, ?_, ?_, ?_, ?_⟩
    · by_cases h : e.FlavorID.isSome <;> simp [creationOpts, h]
    · by_cases h : e.FlavorID.isSome <;> simp [creationOpts, h]
    · intro h
      simp [creationOpts, h]
    · simp only [RenderOpenstack, renderCreate, hsubs, hcreate]
      cases hsg : e.SecurityGroup with
      | none => simp [List.filter, Op.isCreate]
      | some sg =>
        cases hupd : cloud.updatePort lb.VipPortID [valueOf sg.ID] <;>
          simp [hupd, List.filter, Op.isCreate]
    · simp only [RenderOpenstack, renderCreate, hsubs, hcreate]
      cases hsg : e.SecurityGroup with
      | none => simp
      | some sg =>
        cases hupd : cloud.updatePort lb.VipPortID [valueOf sg.ID] <;> simp [hupd]

/-- Witness for C6: a create against a cloud resolving one subnet issues one
create request and back-propagates the remote-assigned fields. -/
theorem RenderOpenstack_creation_path_witness :
    (creationOpts lbNamedW subnetW).Name = valueOf lbNamedW.Name
    ∧ (creationOpts lbNamedW subnetW).VipSubnetID = subnetW.ID
    ∧ (lbNamedW.FlavorID.isSome →
        (creationOpts lbNamedW subnetW).FlavorID = valueOf lbNamedW.FlavorID)
    ∧ (RenderOpenstack cloudCreateW none lbNamedW emptyLB).ops.filter Op.isCreate
        = [.createLB (creationOpts lbNamedW subnetW)]
    ∧ (RenderOpenstack cloudCreateW none lbNamedW emptyLB).e =
        { lbNamedW with ID := some lbRemoteW.ID, PortID := some lbRemoteW.VipPortID,
                        VipSubnet := some lbRemoteW.VipSubnetID,
                        Provider := some lbRemoteW.Provider,
                        FlavorID := some lbRemoteW.FlavorID } :=
  (RenderOpenstack_creation_path cloudCreateW lbNamedW emptyLB).2.2 subnetW lbRemoteW rfl rfl

/-- C7: on exactly one match, `Find` reconstructs the actual descriptor with
the subnet name obtained from the secondary subnet lookup (whose failure
propagates), resolves the security group by looking up the load balancer's
own name exactly when the caller's descriptor has a security group set, and
writes exactly the five remote-assigned fields back onto the receiver,
leaving its Name, Subnet, SecurityGroup and Lifecycle unchanged. -/
theorem Find_single_match_reconstruction (cloud : Cloud) (s : LB) (n : String)
    (lb : LoadBalancer)
    (hname : s.Name = some n) (hlist : cloud.listLoadbalancers n = .ok [lb]) :
    (∀ msg, cloud.getSubnet lb.VipSubnetID = .error msg →
        ((Find cloud s).result = .error msg ∧ (Find cloud s).recv = s))
    ∧ (∀ sub, cloud.getSubnet lb.VipSubnetID = .ok sub →
        ((s.SecurityGroup = none →
            Find cloud s =
              ⟨.ok (some ⟨some lb.ID, some lb.Name, some sub.Name, some lb.VipSubnetID,
                  s.Lifecycle, some lb.VipPortID, none, some lb.Provider, some lb.FlavorID⟩),
                { s with ID := some lb.ID, PortID := some lb.VipPortID,
                         VipSubnet := some lb.VipSubnetID, Provider := some lb.Provider,
                         FlavorID := some lb.FlavorID },
                [.listLoadbalancers n, .getSubnet lb.VipSubnetID]⟩)
          ∧ (s.SecurityGroup ≠ none →
              ((∀ sg, cloud.getSecurityGroupByName lb.Name = .ok sg →
                  Find cloud s =
                    ⟨.ok (some ⟨some lb.ID, some lb.Name, some sub.Name, some lb.VipSubnetID,
                        s.Lifecycle, some lb.VipPortID, some sg, some lb.Provider,
                        some lb.FlavorID⟩),
                      { s with ID := some lb.ID, PortID := some lb.VipPortID,
                               VipSubnet := some lb.VipSubnetID, Provider := some lb.Provider,
                               FlavorID := some lb.FlavorID },
                      [.listLoadbalancers n, .getSubnet lb.VipSubnetID,
                        .getSecurityGroupByName lb.Name]⟩)
                ∧ (∀ msg, cloud.getSecurityGroupByName lb.Name = .error msg →
                    ((Find cloud s).result = .error msg
                      ∧ (Find cloud s).recv = s)))))) := by
  constructor
  · intro msg hmsg
    simp [Find, hname, valueOf, hlist, NewLBTaskFromCloud, hmsg, Except.map]
  · intro sub hsub
    constructor
    · intro hnosg
      simp [Find, hname, valueOf, hlist, NewLBTaskFromCloud, hsub, hnosg, backPropagate, Except.map]
    · intro hsg
      constructor
      · intro sg hok
        have hsg2 : (if s.SecurityGroup = none then false else true) = true := by
          simp [hsg]
        simp [Find, hname, valueOf, hlist, NewLBTaskFromCloud, hsub, hsg2, hok, backPropagate, Except.map]
      · intro msg hmsg
        have hsg2 : (if s.SecurityGroup = none then false else true) = true := by
          simp [hsg]
        simp [Find, hname, valueOf, hlist, NewLBTaskFromCloud, hsub, hsg2, hmsg, Except.map]

/-- Witness for C7: one match with a tracked security group reconstructs the
full descriptor and back-propagates the remote-assigned fields onto the
receiver. -/
theorem Find_single_match_reconstruction_witness :
    Find cloudFindW lbNamedSgW =
      ⟨.ok (some ⟨some lbRemoteW.ID, some lbRemoteW.Name, some subnetW.Name,
          some lbRemoteW.VipSubnetID, lbNamedSgW.Lifecycle, some lbRemoteW.VipPortID,
          some sgW, some lbRemoteW.Provider, some lbRemoteW.FlavorID⟩),
        { lbNamedSgW with ID := some lbRemoteW.ID, PortID := some lbRemoteW.VipPortID,
                          VipSubnet := some lbRemoteW.VipSubnetID,
                          Provider := some lbRemoteW.Provider,
                          FlavorID := some lbRemoteW.FlavorID },
        [.listLoadbalancers "lb1", .getSubnet lbRemoteW.VipSubnetID,
          .getSecurityGroupByName lbRemoteW.Name]⟩ :=
  (((Find_single_match_reconstruction cloudFindW lbNamedSgW "lb1" lbRemoteW rfl rfl).2
      subnetW rfl).2 (by simp [lbNamedSgW, emptyLB])).1 sgW rfl

/-- Skipping non-terminal attempts: if the first `k` fetches starting at
attempt `i` succeed with a non-terminal status, the loop runs on to attempt
`i + k` with `k` fewer steps remaining (and some last-seen status). -/
theorem pollGo_skip (fetch : Nat → Except String String) :
    ∀ (k steps i : Nat) (last : String),
      (∀ j, j < k → ∃ st, fetch (i + j) = .ok st ∧ st ≠ activeStatus ∧ st ≠ errorStatus) →
      k ≤ steps →
      ∃ last2, pollGo fetch steps i last = pollGo fetch (steps - k) (i + k) last2 := by
  intro k
  induction k with
  | zero =>
    intro steps i last _ _
    exact ⟨last, rfl⟩
  | succ m ih =>
    intro steps i last h hk
    obtain ⟨st, hst, hA, hE⟩ := h 0 (Nat.succ_pos m)
    match steps, hk with
    | steps2 + 1, hk =>
      have hst2 : fetch i = .ok st := by simpa using hst
      have h1 : pollGo fetch (steps2 + 1) i last = pollGo fetch steps2 (i + 1) st := by
        simp [pollGo, hst2, hA, hE]
      obtain ⟨last2, h2⟩ := ih steps2 (i + 1) st
        (fun j hj => by
          obtain ⟨st2, h3, h4, h5⟩ := h (j + 1) (Nat.succ_lt_succ hj)
          exact ⟨st2, by rwa [show i + (j + 1) = i + 1 + j by omega] at h3, h4, h5⟩)
        (Nat.le_of_succ_le_succ hk)
      refine ⟨last2, ?_⟩
      rw [show steps2 + 1 - (m + 1) = steps2 - m by omega,
        show i + (m + 1) = i + 1 + m by omega]
      rw [h1, h2]

/-- C5: after any run of non-terminal attempts, the poller succeeds at the
first attempt whose status is ACTIVE, fails immediately with the
failure-status error at the first ERROR attempt even though budget remains,
aborts immediately with the transport error on a fetch failure, and, if all
22 attempts are non-terminal, stops with the timeout error (an error value
distinct by construction from the other two). -/
theorem wait_terminal_status_semantics (fetch : Nat → Except String String) (i : Nat)
    (hnt : ∀ j, j < i → ∃ st, fetch j = .ok st ∧ st ≠ activeStatus ∧ st ≠ errorStatus) :
    (i < loadbalancerActiveSteps →
      ((fetch i = .ok activeStatus →
          waitLoadbalancerActiveProvisioningStatus fetch = ⟨activeStatus, i + 1, none⟩)
        ∧ (fetch i = .ok errorStatus →
            waitLoadbalancerActiveProvisioningStatus fetch
              = ⟨errorStatus, i + 1, some .failedStatus⟩)
        ∧ (∀ msg, fetch i = .error msg →
            (waitLoadbalancerActiveProvisioningStatus fetch).attempts = i + 1
              ∧ (waitLoadbalancerActiveProvisioningStatus fetch).err
                  = some (.transport msg))))
    ∧ (i = loadbalancerActiveSteps →
        (waitLoadbalancerActiveProvisioningStatus fetch).attempts = loadbalancerActiveSteps
          ∧ (waitLoadbalancerActiveProvisioningStatus fetch).err = some .timeout) := by
  constructor
  · intro hi
    obtain ⟨last2, hskip⟩ := pollGo_skip fetch i loadbalancerActiveSteps 0 ""
      (fun j hj => by simpa using hnt j hj) (Nat.le_of_lt hi)
    rw [Nat.zero_add] at hskip
    obtain ⟨m, hm⟩ : ∃ m, loadbalancerActiveSteps - i = m + 1 :=
      ⟨loadbalancerActiveSteps - i - 1, by omega⟩
    rw [hm] at hskip
    refine ⟨?_, ?_, ?_⟩
    · intro hA
      unfold waitLoadbalancerActiveProvisioningStatus
      rw [hskip]
      simp [pollGo, hA]
    · intro hE
      unfold waitLoadbalancerActiveProvisioningStatus
      rw [hskip]
      simp [pollGo, hE, activeStatus, errorStatus]
    · intro msg hmsg
      unfold waitLoadbalancerActiveProvisioningStatus
      rw [hskip]
      simp [pollGo, hmsg]
  · intro hi
    obtain ⟨last2, hskip⟩ := pollGo_skip fetch i loadbalancerActiveSteps 0 ""
      (fun j hj => by simpa using hnt j hj) (Nat.le_of_eq hi)
    rw [Nat.zero_add] at hskip
    rw [hi, Nat.sub_self] at hskip
    unfold waitLoadbalancerActiveProvisioningStatus
    rw [hskip]
    simp [pollGo, hi]

/-- Witness for C5: statuses PENDING, PENDING, ACTIVE make the poller succeed
after exactly 3 attempts. -/
theorem wait_terminal_status_semantics_witness :
    waitLoadbalancerActiveProvisioningStatus fetchW = ⟨activeStatus, 3, none⟩ :=
  ((wait_terminal_status_semantics fetchW 2
      (fun j hj => ⟨"PENDING", by simp [fetchW, hj], by decide, by decide⟩)).1
    (by decide)).1 (by simp [fetchW, activeStatus])

end Kops
